import Mathlib

/-!
Shallow embedding of the sales microservice (Express + mssql TypeScript code):
the JWT auth middleware with remote delegation and local fallback, and the
client routes and model (create, paginated/search listing, recent listing).
JS strings are modelled as Lean strings with hand-rolled executable helpers
mirroring the JS semantics used by the code; the SQL database is modelled as
a list of rows with the queries' semantics spelled out (default SQL Server
collation is modelled as case-insensitive via lowercasing).
-/

namespace Sales

/-- Whitespace characters recognised by the modelled JS helpers (a practical
subset of the JS WhiteSpace/LineTerminator productions). -/
def isWsCh (c : Char) : Bool :=
  c = ' ' || c = '\t' || c = '\n' || c = '\r'

/-- Decimal digit character. -/
def isDigitCh (c : Char) : Bool :=
  decide (48 ≤ c.toNat) && decide (c.toNat ≤ 57)

/-- Hex digit character (both cases), as accepted by JS parseInt radix 16. -/
def isHexDigitCh (c : Char) : Bool :=
  isDigitCh c || (decide (97 ≤ c.toNat) && decide (c.toNat ≤ 102))
    || (decide (65 ≤ c.toNat) && decide (c.toNat ≤ 70))

/-- Lowercase hex digit character (0-9, a-f), as produced by uuid v4. -/
def isHexLowerCh (c : Char) : Bool :=
  isDigitCh c || (decide (97 ≤ c.toNat) && decide (c.toNat ≤ 102))

/-- Numeric value of a decimal digit character. -/
def digitVal (c : Char) : Nat := c.toNat - 48

/-- Numeric value of a hex digit character. -/
def hexVal (c : Char) : Nat :=
  if c.toNat ≤ 57 then c.toNat - 48
  else if 97 ≤ c.toNat then c.toNat - 87
  else c.toNat - 55

/-- Digit character for a value below ten. -/
def digitChar : Nat → Char
  | 0 => '0' | 1 => '1' | 2 => '2' | 3 => '3' | 4 => '4'
  | 5 => '5' | 6 => '6' | 7 => '7' | 8 => '8' | _ => '9'

/-- Fueled most-significant-first decimal digit rendering of a natural
number; with fuel above the number it never runs out. -/
def natToDigitsAux : Nat → Nat → List Char → List Char
  | 0, _, acc => acc
  | fuel + 1, n, acc =>
    if n < 10 then digitChar n :: acc
    else natToDigitsAux fuel (n / 10) (digitChar (n % 10) :: acc)

/-- Decimal string of a natural number. -/
def natToString (n : Nat) : String :=
  String.mk (natToDigitsAux (n + 1) n [])

/-- Model of JS Number#toString on integers (JS numbers are modelled as
exact integers throughout). -/
def jsIntToString (n : Int) : String :=
  if n < 0 then String.mk ('-' :: (natToString n.natAbs).data)
  else natToString n.natAbs

/-- Model of JS parseInt with no explicit radix: skip leading whitespace,
optional sign, an optional 0x/0X hex prefix, then the longest run of digits;
NaN (modelled as none) when that run is empty. -/
def parseSign (l : List Char) : Int × List Char :=
  if l.headD ' ' = '-' then (-1, l.tail)
  else if l.headD ' ' = '+' then (1, l.tail)
  else (1, l)

/-- Recognition of the 0x / 0X prefix selecting radix 16 in JS parseInt. -/
def parseHexPrefix (l : List Char) : Bool × List Char :=
  if l.headD ' ' = '0' ∧ (l.tail.headD ' ' = 'x' ∨ l.tail.headD ' ' = 'X') then
    (true, l.tail.tail)
  else (false, l)

/-- Value of a digit run in the selected radix. -/
def digitsValue (hex : Bool) (ds : List Char) : Int :=
  ds.foldl
    (fun a c => a * (if hex then 16 else 10)
      + (if hex then (hexVal c : Int) else (digitVal c : Int)))
    0

def parseIntJS (s : String) : Option Int :=
  let l := s.data.dropWhile isWsCh
  let sl := parseSign l
  let hl := parseHexPrefix sl.2
  let ds := if hl.1 then hl.2.takeWhile isHexDigitCh else hl.2.takeWhile isDigitCh
  if ds.isEmpty then none else some (sl.1 * digitsValue hl.1 ds)

/-- JS truthiness of an optional string (undefined and the empty string are
falsy). -/
def jsTruthy : Option String → Bool
  | none => false
  | some s => decide (s ≠ "")

/-- Model of JS String#split on a single-character separator. -/
def splitCh (sep : Char) (l : List Char) : List (List Char) :=
  l.foldr
    (fun c acc =>
      if c = sep then [] :: acc
      else (c :: acc.headD []) :: acc.tail)
    [[]]

/-- Token extraction from the Authorization header: authHeader.split(' ')[1]. -/
def tokenOf (h : String) : String :=
  String.mk ((splitCh ' ' h.data).getD 1 [])

/-- Substring occurrence test on character lists (contiguous occurrence). -/
def occursIn (t : List Char) : List Char → Bool
  | [] => t.isEmpty
  | c :: s' => t.isPrefixOf (c :: s') || occursIn t (s')

/-- Lowercasing of a character list; used to model the case-insensitive
default SQL Server collation and JS case-insensitive comparisons. -/
def lowerL (l : List Char) : List Char := l.map Char.toLower

/-- Model of JS String#trim. -/
def jsTrim (l : List Char) : List Char :=
  ((l.dropWhile isWsCh).reverse.dropWhile isWsCh).reverse

/-- Case-insensitive string equality: models the default case-insensitive
SQL Server collation applied to the = operator in WHERE clauses. -/
def eqCI (a b : String) : Bool := lowerL a.data == lowerL b.data

/-- Character list free of the T-SQL LIKE metacharacters. -/
def metaFreeL (l : List Char) : Bool :=
  l.all (fun c => decide (c ≠ '%') && decide (c ≠ '_') && decide (c ≠ '['))

/-- Case-insensitive substring occurrence between strings. -/
def ciSubstr (t s : String) : Bool := occursIn (lowerL t.data) (lowerL s.data)

/-- Case-insensitive substring occurrence against a nullable column (SQL
NULL LIKE pattern is not true). -/
def ciSubstrOpt (t : String) : Option String → Bool
  | none => false
  | some s => ciSubstr t s

/-- One element of a T-SQL LIKE bracket class: a single character or a
character range. -/
inductive ClassItem
  | single (c : Char)
  | range (lo hi : Char)
deriving DecidableEq

/-- Reads the items of a T-SQL LIKE bracket class up to the closing bracket;
none when the class is unterminated. A dash directly before the closing
bracket is taken literally. -/
def readClassItems : List Char → Option (List ClassItem × List Char)
  | [] => none
  | ']' :: rest => some ([], rest)
  | lo :: '-' :: hi :: rest =>
    if hi = ']' then some ([.single lo, .single '-'], rest)
    else (readClassItems rest).map (fun p => (.range lo hi :: p.1, p.2))
  | c :: rest => (readClassItems rest).map (fun p => (.single c :: p.1, p.2))

/-- Reads a full bracket class body (after the opening bracket), including an
optional leading caret for negation. -/
def readClass (p : List Char) : Option (Bool × List ClassItem × List Char) :=
  match p with
  | '^' :: p' => (readClassItems p').map (fun q => (true, q.1, q.2))
  | _ => (readClassItems p).map (fun q => (false, q.1, q.2))

/-- Membership of a character in one bracket-class item; ranges are compared
by code point, a simple model of the collation order. -/
def classItemMatch (c : Char) : ClassItem → Bool
  | .single a => decide (a = c)
  | .range lo hi => decide (lo.toNat ≤ c.toNat) && decide (c.toNat ≤ hi.toNat)

/-- Fueled matcher for T-SQL LIKE patterns (percent, underscore and bracket
classes) against a whole text. Fuel above pattern length + text length never
runs out. -/
def likeMatchF : Nat → List Char → List Char → Bool
  | 0, _, _ => false
  | fuel + 1, p, t =>
    match p with
    | [] => t.isEmpty
    | a :: p' =>
      if a = '%' then
        likeMatchF fuel p' t ||
          (match t with
           | [] => false
           | _ :: t' => likeMatchF fuel (a :: p') t')
      else if a = '_' then
        match t with
        | [] => false
        | _ :: t' => likeMatchF fuel p' t'
      else if a = '[' then
        match readClass p' with
        | some q =>
          (match t with
           | [] => false
           | c :: t' => (q.2.1.any (classItemMatch c) != q.1) && likeMatchF fuel q.2.2 t')
        | none =>
          (match t with
           | [] => false
           | c :: t' => decide (a = c) && likeMatchF fuel p' t')
      else
        match t with
        | [] => false
        | c :: t' => decide (a = c) && likeMatchF fuel p' t'

/-- T-SQL LIKE match of a whole text against a pattern. -/
def likeMatch (p t : List Char) : Bool :=
  likeMatchF (p.length + t.length + 1) p t

/-- Decoded JWT payload as the middleware reads it. -/
structure DecodedToken where
  userId : Int
  email : String
  role : String
  exp : Int
deriving DecidableEq

/-- Authenticated principal attached to the request (req.user). -/
structure Principal where
  id : String
  email : String
  role : String
deriving DecidableEq

/-- User object in the remote validation response; idStr is user.id already
stringified (user.id.toString()). -/
structure RemoteUser where
  idStr : String
  email : String
  role : String
deriving DecidableEq

/-- An HTTP error response carried by an axios error (status and raw body). -/
structure ErrResponse where
  status : Nat
  data : String
deriving DecidableEq

/-- Shape of an axios error as the middleware inspects it. -/
structure AxiosErrorInfo where
  code : String
  message : String
  response : Option ErrResponse
deriving DecidableEq

/-- Outcome of the remote validation call (the axios post): a 2xx response
whose data may or may not contain a user object, an axios error, or a
non-axios exception. -/
inductive RemoteOutcome
  | ok (user : Option RemoteUser)
  | axiosErr (e : AxiosErrorInfo)
  | otherErr
deriving DecidableEq

/-- Result of the auth middleware: attach a principal and call next, respond
with a json error envelope, or propagate a remote response verbatim. -/
inductive AuthOutcome
  | ok (user : Principal)
  | reject (status : Nat) (message : String)
  | propagate (status : Nat) (body : String)
deriving DecidableEq

/-- HTTP status of an auth outcome, none when the request was admitted. -/
def AuthOutcome.statusOf : AuthOutcome → Option Nat
  | .ok _ => none
  | .reject s _ => some s
  | .propagate s _ => some s

/-- Environment configuration read by the middleware. -/
structure AuthEnv where
  mainApiUrl : Option String
  authEndpoint : Option String
  jwtSecret : Option String
deriving DecidableEq

/-- The middleware's classification of a transport-level failure: axios code
ECONNABORTED (its timeout) or an error message containing Network Error. -/
def isTransportError (e : AxiosErrorInfo) : Bool :=
  decide (e.code = "ECONNABORTED") || occursIn ("Network Error".data) e.message.data

/-- Local token validation (both the Option 2 branch and the fallback branch
of the middleware): an unset or empty JWT_SECRET throws, a failed verify
throws, both caught as a 401 Invalid token; then the explicit expiry check
(decoded.exp against Date.now()/1000, scaled to avoid division) and the role
check. verify is the jsonwebtoken verify oracle (token, secret). -/
def localValidate (jwtSecret : Option String)
    (verify : String → String → Option DecodedToken)
    (token : String) (nowMs : Int) : AuthOutcome :=
  if jsTruthy jwtSecret = false then .reject 401 "Invalid token"
  else
    match verify token (jwtSecret.getD "") with
    | none => .reject 401 "Invalid token"
    | some d =>
      if d.exp * 1000 < nowMs then .reject 401 "Token expired"
      else if d.role ≠ "sales" ∧ d.role ≠ "admin" then
        .reject 403 "Access denied: Sales role required"
      else .ok ⟨jsIntToString d.userId, d.email, d.role⟩

/-- The validateSalesAuth middleware. The Authorization header must be a
Bearer token; with MAIN_API_URL and AUTH_ENDPOINT both truthy the remote
call's outcome is consumed (role check on success; transport-classified
errors fall back to local validation; axios errors carrying a response are
propagated verbatim; anything else is a 500); otherwise validation is local. -/
def validateSalesAuth (env : AuthEnv) (authHeader : Option String)
    (remote : RemoteOutcome) (verify : String → String → Option DecodedToken)
    (nowMs : Int) : AuthOutcome :=
  match authHeader with
  | none => .reject 401 "No token provided"
  | some h =>
    if ("Bearer ".data.isPrefixOf h.data) = false then .reject 401 "No token provided"
    else
      let token := tokenOf h
      if jsTruthy env.mainApiUrl && jsTruthy env.authEndpoint then
        match remote with
        | .ok ouser =>
          match ouser with
          | none => .reject 403 "Access denied: Sales role required"
          | some u =>
            if u.role ≠ "sales" ∧ u.role ≠ "admin" then
              .reject 403 "Access denied: Sales role required"
            else .ok ⟨u.idStr, u.email, u.role⟩
        | .axiosErr e =>
          if isTransportError e then localValidate env.jwtSecret verify token nowMs
          else
            match e.response with
            | some r => .propagate r.status r.data
            | none => .reject 500 "Authentication service error"
        | .otherErr => .reject 500 "Authentication service error"
      else localValidate env.jwtSecret verify token nowMs

/-- Row of the clients table, restricted to the columns the verified queries
read or write; the remaining optional descriptive columns never appear in a
WHERE, ORDER BY or handler-level check. sales_rep_id and the two searchable
optional columns are nullable. -/
structure ClientRow where
  id : String
  customer_type : String
  product : String
  insurance_provider : String
  client_name : String
  mobile_no : String
  email : Option String
  policy_no : Option String
  sales_rep_id : Option Int
  created_at : Int
deriving DecidableEq

/-- Request body of a creation request (the open field bag restricted to the
fields the handlers and queries touch); none models an absent key. The
client may supply its own id and even its own sales_rep_id. -/
structure CreateBody where
  id : Option String
  customer_type : Option String
  product : Option String
  insurance_provider : Option String
  client_name : Option String
  mobile_no : Option String
  email : Option String
  policy_no : Option String
  sales_rep_id : Option Int
deriving DecidableEq

/-- Insertion into a list sorted by created_at descending. -/
def insertByDesc (c : ClientRow) : List ClientRow → List ClientRow
  | [] => [c]
  | d :: t =>
    if d.created_at ≤ c.created_at then c :: d :: t
    else d :: insertByDesc c t

/-- Model of ORDER BY created_at DESC (insertion sort; equal keys in an
arbitrary but fixed order, as in SQL). -/
def sortByCreatedDesc : List ClientRow → List ClientRow
  | [] => []
  | c :: t => insertByDesc c (sortByCreatedDesc t)

/-- Executable check that a list is ordered by created_at descending. -/
def sortedByCreatedDesc : List ClientRow → Bool
  | [] => true
  | [_] => true
  | a :: b :: t => decide (b.created_at ≤ a.created_at) && sortedByCreatedDesc (b :: t)

/-- Model of checkDuplicate: COUNT of rows with the same client_name and
insurance_provider (case-insensitive collation) is positive. -/
def checkDuplicate (tbl : List ClientRow) (clientName insuranceProvider : String) : Bool :=
  decide (0 < (tbl.filter
    (fun r => eqCI r.client_name clientName && eqCI r.insurance_provider insuranceProvider)).length)

/-- Generated client identifier: the letter C followed by the first eight
characters of the uuid string. -/
def genClientId (uuid : String) : String :=
  String.mk ('C' :: uuid.data.take 8)

/-- The C followed by eight lowercase hex characters shape claimed for
generated identifiers. -/
def clientIdPattern (s : String) : Bool :=
  match s.data with
  | 'C' :: rest => decide (rest.length = 8) && rest.all isHexLowerCh
  | _ => false

/-- First eight characters of a uuid string are lowercase hex (true of any
uuid v4 rendering). -/
def hexLower8 (uuid : String) : Bool :=
  decide ((uuid.data.take 8).length = 8) && (uuid.data.take 8).all isHexLowerCh

/-- The row built by createClient from the route's clientData. The id field
follows the JS evaluation: clientData.id falsy picks the generated id, but
the later object spread puts a present (even empty) body id back, so only an
absent body id yields the generated one. created_at is always stamped at
insert time; the required string fields are written as given (the handlers
validate them as non-empty before this point). -/
def rowFromData (data : CreateBody) (uuid : String) (nowMs : Int) : ClientRow where
  id := match data.id with
    | none => genClientId uuid
    | some s => s
  customer_type := data.customer_type.getD ""
  product := data.product.getD ""
  insurance_provider := data.insurance_provider.getD ""
  client_name := data.client_name.getD ""
  mobile_no := data.mobile_no.getD ""
  email := data.email
  policy_no := data.policy_no
  sales_rep_id := data.sales_rep_id
  created_at := nowMs

/-- Model of createClient: insert the row, then re-read
SELECT * FROM clients WHERE id = param0 (param0 is the final id value) and
return its first row; none models the thrown Failed to create client. The
insert has happened either way. -/
def createClient (tbl : List ClientRow) (data : CreateBody) (uuid : String)
    (nowMs : Int) : Option ClientRow × List ClientRow :=
  let row := rowFromData data uuid nowMs
  let tbl2 := tbl ++ [row]
  ((tbl2.filter (fun r => eqCI r.id row.id)).head?, tbl2)

/-- One LIKE comparison of a nullable column against a pattern, under the
case-insensitive collation; NULL LIKE pattern is not true. -/
def likeField (pat : List Char) : Option String → Bool
  | none => false
  | some s => likeMatch pat (lowerL s.data)

/-- The six-way OR of LIKE comparisons in the search queries, with the
pattern percent-search-percent built from the raw search string. -/
def likeAnyField (term : String) (r : ClientRow) : Bool :=
  let pat := lowerL (("%" ++ term ++ "%").data)
  likeField pat (some r.client_name) || likeField pat r.email
    || likeField pat (some r.mobile_no) || likeField pat (some r.product)
    || likeField pat (some r.insurance_provider) || likeField pat r.policy_no

/-- Modelled from the spec's wording of search: the term occurs as a
case-insensitive substring of at least one of client name, email, mobile
number, product, insurer, policy number. Stated for comparison with the
code's LIKE-based predicate. -/
def specSearchMatch (t : String) (r : ClientRow) : Bool :=
  ciSubstr t r.client_name || ciSubstrOpt t r.email || ciSubstr t r.mobile_no
    || ciSubstr t r.product || ciSubstr t r.insurance_provider || ciSubstrOpt t r.policy_no

/-- The model's test search and search.trim() is not empty selecting the
query pair with the search conditions. -/
def searchActive : Option String → Bool
  | none => false
  | some s => !(jsTrim s.data).isEmpty

/-- WHERE clause of the listing queries: the sales-rep filter, AND'ed with
the six-way LIKE disjunction when search is active. -/
def listPred (n : Int) (search : Option String) (r : ClientRow) : Bool :=
  decide (r.sales_rep_id = some n) &&
    (if searchActive search then likeAnyField (search.getD "") r else true)

/-- Rows matching the listing WHERE clause (before ordering/pagination);
its length is the total reported by the count query. -/
def matchingRows (tbl : List ClientRow) (n : Int) (search : Option String) :
    List ClientRow :=
  tbl.filter (listPred n search)

/-- Model of getAllClientsBySalesRep: parse the sales-rep id (a failure
throws), compute offset = (page-1)*pageSize with NaN propagation (none),
then run count + data queries; OFFSET with a NaN or negative value, or FETCH
NEXT with a NaN or non-positive value, is invalid T-SQL and throws (none). -/
def getAllClientsBySalesRep (tbl : List ClientRow) (salesRepId : String)
    (page pageSize : Option Int) (search : Option String) :
    Option (List ClientRow × Nat) :=
  match parseIntJS salesRepId with
  | none => none
  | some n =>
    match page, pageSize with
    | some p, some f =>
      if (p - 1) * f < 0 ∨ f < 1 then none
      else
        some ((((sortByCreatedDesc (matchingRows tbl n search)).drop ((p - 1) * f).toNat).take f.toNat),
          (matchingRows tbl n search).length)
    | _, _ => none

/-- Model of getClientsByCreator: parse the sales-rep id (a failure throws),
then SELECT TOP limit ordered by created_at descending; TOP with a NaN or
negative row count is invalid T-SQL and throws (none). -/
def getClientsByCreator (tbl : List ClientRow) (salesRepId : String)
    (limit : Option Int) : Option (List ClientRow) :=
  match parseIntJS salesRepId with
  | none => none
  | some n =>
    match limit with
    | none => none
    | some l =>
      if l < 0 then none
      else some ((sortByCreatedDesc
        (tbl.filter (fun r => decide (r.sales_rep_id = some n)))).take l.toNat)

/-- Response of the create route. -/
inductive CreateOutcome
  | created (status : Nat) (c : ClientRow)
  | failed (status : Nat) (message : String)
deriving DecidableEq

/-- Response of the paginated listing route (clients plus the reported
total; the remaining pagination metadata is derived from them and the
echoed parameters). -/
inductive ListOutcome
  | ok (clients : List ClientRow) (total : Nat)
  | err (status : Nat) (message : String)
deriving DecidableEq

/-- Response of the recent listing route (clients plus the reported count). -/
inductive RecentOutcome
  | ok (clients : List ClientRow) (count : Nat)
  | err (status : Nat) (message : String)
deriving DecidableEq

/-- The create route's required-field validation: the five required fields
must be present and truthy. -/
def requiredFieldsOk (body : CreateBody) : Bool :=
  jsTruthy body.customer_type && jsTruthy body.product
    && jsTruthy body.insurance_provider && jsTruthy body.client_name
    && jsTruthy body.mobile_no

/-- Model of POST /api/sales/clients: field validation, duplicate check,
user-id presence check, parseInt of the principal id (NaN is a 500), then
createClient on the body with sales_rep_id overwritten by the parsed
principal id; a failing re-read surfaces as a 500 after the insert. Returns
the response and the resulting table. -/
def createHandler (tbl : List ClientRow) (user : Principal) (body : CreateBody)
    (uuid : String) (nowMs : Int) : CreateOutcome × List ClientRow :=
  if requiredFieldsOk body = false then
    (.failed 400 "Missing required fields: customer_type, product, insurance_provider, client_name, mobile_no", tbl)
  else if checkDuplicate tbl (body.client_name.getD "") (body.insurance_provider.getD "") then
    (.failed 409 "A client with this name and insurance provider already exists", tbl)
  else if user.id = "" then
    (.failed 401 "User ID not found in authentication data", tbl)
  else
    match parseIntJS user.id with
    | none => (.failed 500 "Invalid sales rep ID format", tbl)
    | some repId =>
      match createClient tbl { body with sales_rep_id := some repId } uuid nowMs with
      | (some c, tbl2) => (.created 201 c, tbl2)
      | (none, tbl2) => (.failed 500 "Failed to create client", tbl2)

/-- Numeric query parameter handling in the routes:
req.query.X present and truthy is parsed (NaN possible, modelled as none),
otherwise the default applies. -/
def pageParam (q : Option String) (dflt : Int) : Option Int :=
  match q with
  | none => some dflt
  | some s => if s = "" then some dflt else parseIntJS s

/-- Model of GET /api/sales/clients: page and pageSize from the query with
defaults 1 and 10, the user-id presence check, then
getAllClientsBySalesRep; any model-level throw is caught as a 500. -/
def listHandler (tbl : List ClientRow) (user : Principal)
    (qPage qPageSize qSearch : Option String) : ListOutcome :=
  let page := pageParam qPage 1
  let pageSize := pageParam qPageSize 10
  if user.id = "" then .err 401 "User ID not found in authentication data"
  else
    match getAllClientsBySalesRep tbl user.id page pageSize qSearch with
    | none => .err 500 "Failed to get clients"
    | some r => .ok r.1 r.2

/-- Model of GET /api/sales/clients/recent: limit from the query with
default 10, the user-id presence check, parseInt of the principal id (NaN
is a 500), then getClientsByCreator on the re-stringified id; any
model-level throw is caught as a 500. -/
def recentHandler (tbl : List ClientRow) (user : Principal)
    (qLimit : Option String) : RecentOutcome :=
  let limit := pageParam qLimit 10
  if user.id = "" then .err 401 "User ID not found in authentication data"
  else
    match parseIntJS user.id with
    | none => .err 500 "Invalid sales rep ID format"
    | some repId =>
      match getClientsByCreator tbl (jsIntToString repId) limit with
      | none => .err 500 "Failed to get recent clients"
      | some clients => .ok clients clients.length

/-- Concrete environment with a remote endpoint configured and a local
secret available. -/
def fxEnv : AuthEnv := ⟨some "http://main-backend", some "/api/auth/validate", some "sec"⟩

/-- Concrete environment with no remote endpoint configured. -/
def fxEnvLocal : AuthEnv := ⟨none, none, some "sec"⟩

/-- Concrete verify oracle: accepts the token tok under the secret sec with
a sales role and a far-future expiry. -/
def fxVerify : String → String → Option DecodedToken := fun tok sec =>
  if tok = "tok" ∧ sec = "sec" then some ⟨7, "rep@x.io", "sales", 99999999⟩ else none

/-- Concrete verify oracle: accepts the token tok under the secret sec with
a sales role but an expiry in the past. -/
def fxVerifyExpired : String → String → Option DecodedToken := fun tok sec =>
  if tok = "tok" ∧ sec = "sec" then some ⟨9, "rep@x.io", "sales", 1⟩ else none

/-- Concrete axios error for a refused connection: a transport-level failure
(no response) that the middleware does not classify as one. -/
def fxErrRefused : AxiosErrorInfo :=
  ⟨"ECONNREFUSED", "connect ECONNREFUSED 127.0.0.1:3000", none⟩

/-- Concrete axios error for the 5s timeout. -/
def fxErrTimeout : AxiosErrorInfo :=
  ⟨"ECONNABORTED", "timeout of 5000ms exceeded", none⟩

/-- Concrete axios error for an application-level 401 from the remote auth
service. -/
def fxErrApp : AxiosErrorInfo :=
  ⟨"ERR_BAD_REQUEST", "Request failed with status code 401", some ⟨401, "remote-rejection-body"⟩⟩

/-- Concrete remote user with the sales role. -/
def fxRemoteUser : RemoteUser := ⟨"9", "rep@x.io", "sales"⟩

/-- Concrete principal whose id parses as 7. -/
def fxUser : Principal := ⟨"7", "rep@x.io", "sales"⟩

/-- Concrete principal with an empty id. -/
def fxUserEmptyId : Principal := ⟨"", "rep@x.io", "sales"⟩

/-- Concrete principal whose id does not parse as an integer. -/
def fxUserBadId : Principal := ⟨"abc", "rep@x.io", "sales"⟩

/-- Concrete stored row owned by sales rep 7. -/
def fxRow : ClientRow :=
  ⟨"Cdeadbee1", "Individual", "Life", "AcmeIns", "Bob", "0711", none, none, some 7, 100⟩

/-- Concrete stored row owned by sales rep 7 whose client name is xyz. -/
def fxRowXyz : ClientRow :=
  ⟨"Cfeedface", "Corporate", "Motor", "ZetaIns", "xyz", "0722", none, none, some 7, 200⟩

/-- Concrete valid creation body without a client-supplied id. -/
def fxBody : CreateBody :=
  ⟨none, some "Individual", some "Life", some "AcmeIns", some "Bob", some "0711", none, none, none⟩

/-- Concrete valid creation body that supplies its own id. -/
def fxBodyWithId : CreateBody := { fxBody with id := some "ZZZ" }

/-- Concrete creation body missing the required mobile number. -/
def fxBodyMissing : CreateBody := { fxBody with mobile_no := none }

/-- Concrete uuid string as produced by uuid v4. -/
def fxUuid : String := "deadbeef-1234-4abc-8def-000000000000"

/-- The row the create handler inserts for fxBody, fxUser, fxUuid at time
1000. -/
def fxRowGen : ClientRow :=
  ⟨"Cdeadbeef", "Individual", "Life", "AcmeIns", "Bob", "0711", none, none, some 7, 1000⟩

/-- The row the create handler inserts for fxBodyWithId (the client-supplied
id survives). -/
def fxRowZZZ : ClientRow :=
  ⟨"ZZZ", "Individual", "Life", "AcmeIns", "Bob", "0711", none, none, some 7, 1000⟩

/-! Lemmas about the decimal rendering and parseIntJS. -/

theorem digitChar_spec (d : Nat) (h : d < 10) :
    isDigitCh (digitChar d) = true ∧ digitVal (digitChar d) = d := by
  interval_cases d <;> exact ⟨by decide, by decide⟩

theorem digit_not_special (c : Char) (h : isDigitCh c = true) :
    c ≠ '-' ∧ c ≠ '+' ∧ c ≠ 'x' ∧ c ≠ 'X' ∧ isWsCh c = false := by
  refine ⟨?_, ?_, ?_, ?_, ?_⟩
  · intro he; subst he; exact absurd h (by decide)
  · intro he; subst he; exact absurd h (by decide)
  · intro he; subst he; exact absurd h (by decide)
  · intro he; subst he; exact absurd h (by decide)
  · have h1 : c ≠ ' ' := fun he => by subst he; exact absurd h (by decide)
    have h2 : c ≠ '\t' := fun he => by subst he; exact absurd h (by decide)
    have h3 : c ≠ '\n' := fun he => by subst he; exact absurd h (by decide)
    have h4 : c ≠ '\r' := fun he => by subst he; exact absurd h (by decide)
    simp [isWsCh, h1, h2, h3, h4]

theorem natToDigitsAux_append (fuel : Nat) : ∀ (n : Nat) (acc : List Char),
    natToDigitsAux fuel n acc = natToDigitsAux fuel n [] ++ acc := by
  induction fuel with
  | zero => intro n acc; simp [natToDigitsAux]
  | succ f ih =>
    intro n acc
    by_cases h : n < 10
    · simp [natToDigitsAux, h]
    · simp only [natToDigitsAux, if_neg h]
      rw [ih (n / 10) (digitChar (n % 10) :: acc), ih (n / 10) [digitChar (n % 10)]]
      simp

theorem natToDigitsAux_ne_nil (fuel n : Nat) (h : 0 < fuel) :
    natToDigitsAux fuel n [] ≠ [] := by
  cases fuel with
  | zero => omega
  | succ f =>
    by_cases hn : n < 10
    · simp [natToDigitsAux, hn]
    · simp only [natToDigitsAux, if_neg hn]
      rw [natToDigitsAux_append]
      simp

theorem natToDigitsAux_all_digit (fuel : Nat) : ∀ n : Nat, n < fuel →
    (natToDigitsAux fuel n []).all isDigitCh = true := by
  induction fuel with
  | zero => intro n h; omega
  | succ f ih =>
    intro n hn
    by_cases h : n < 10
    · simp [natToDigitsAux, h, (digitChar_spec n h).1]
    · simp only [natToDigitsAux, if_neg h]
      rw [natToDigitsAux_append]
      have hd : n / 10 < f := by omega
      simp [List.all_append, ih (n / 10) hd, (digitChar_spec (n % 10) (by omega)).1]

theorem natToDigitsAux_foldl (fuel : Nat) : ∀ n : Nat, n < fuel →
    (natToDigitsAux fuel n []).foldl (fun (a : Int) c => a * 10 + (digitVal c : Int)) 0 = n := by
  induction fuel with
  | zero => intro n h; omega
  | succ f ih =>
    intro n hn
    by_cases h : n < 10
    · simp [natToDigitsAux, h, (digitChar_spec n h).2]
    · simp only [natToDigitsAux, if_neg h]
      rw [natToDigitsAux_append, List.foldl_append]
      have hd : n / 10 < f := by omega
      rw [ih (n / 10) hd]
      simp [(digitChar_spec (n % 10) (by omega)).2]
      omega

theorem takeWhile_all {p : Char → Bool} : ∀ l : List Char, l.all p = true →
    l.takeWhile p = l := by
  intro l h
  induction l with
  | nil => rfl
  | cons c t ih =>
    simp only [List.all_cons, Bool.and_eq_true] at h
    simp [List.takeWhile_cons, h.1, ih h.2]

theorem dropWhile_ws_of_digits (l : List Char) (h : l.all isDigitCh = true) :
    l.dropWhile isWsCh = l := by
  cases l with
  | nil => rfl
  | cons c t =>
    simp only [List.all_cons, Bool.and_eq_true] at h
    simp [List.dropWhile_cons, (digit_not_special c h.1).2.2.2.2]

theorem parseSign_digit (c : Char) (t : List Char) (hc : isDigitCh c = true) :
    parseSign (c :: t) = (1, c :: t) := by
  obtain ⟨hm, hp, _, _, _⟩ := digit_not_special c hc
  simp [parseSign, hm, hp]

theorem parseHexPrefix_digits (l : List Char) (hall : l.all isDigitCh = true) :
    parseHexPrefix l = (false, l) := by
  cases l with
  | nil => rfl
  | cons c t =>
    simp only [List.all_cons, Bool.and_eq_true] at hall
    cases t with
    | nil => simp [parseHexPrefix]
    | cons c2 t2 =>
      have hc2 : isDigitCh c2 = true := by
        have h2 := hall.2
        simp only [List.all_cons, Bool.and_eq_true] at h2
        exact h2.1
      obtain ⟨_, _, hx2, hX2, _⟩ := digit_not_special c2 hc2
      simp [parseHexPrefix, hx2, hX2]

theorem digitsValue_decimal (ds : List Char) :
    digitsValue false ds = ds.foldl (fun (a : Int) c => a * 10 + (digitVal c : Int)) 0 := by
  simp [digitsValue]

theorem parseIntJS_digits (l : List Char) (hne : l ≠ []) (hall : l.all isDigitCh = true) :
    parseIntJS (String.mk l)
      = some (l.foldl (fun (a : Int) c => a * 10 + (digitVal c : Int)) 0) := by
  obtain ⟨c, t, rfl⟩ : ∃ c t, l = c :: t := by
    cases l with
    | nil => exact absurd rfl hne
    | cons c t => exact ⟨c, t, rfl⟩
  have hc : isDigitCh c = true := by
    simp only [List.all_cons, Bool.and_eq_true] at hall; exact hall.1
  simp only [parseIntJS, dropWhile_ws_of_digits _ hall, parseSign_digit c t hc,
    parseHexPrefix_digits _ hall, takeWhile_all _ hall, digitsValue_decimal]
  simp

theorem parseIntJS_jsIntToString (n : Int) : parseIntJS (jsIntToString n) = some n := by
  by_cases hn : n < 0
  · set m := n.natAbs with hm
    have hne : natToDigitsAux (m + 1) m [] ≠ [] := natToDigitsAux_ne_nil _ _ (by omega)
    have hall : (natToDigitsAux (m + 1) m []).all isDigitCh = true :=
      natToDigitsAux_all_digit _ _ (by omega)
    obtain ⟨c, t, he⟩ : ∃ c t, natToDigitsAux (m + 1) m [] = c :: t := by
      cases hl : natToDigitsAux (m + 1) m [] with
      | nil => exact absurd hl hne
      | cons c t => exact ⟨c, t, rfl⟩
    rw [he] at hall
    have hc : isDigitCh c = true := by
      simp only [List.all_cons, Bool.and_eq_true] at hall; exact hall.1
    have hfold := natToDigitsAux_foldl (m + 1) m (by omega)
    rw [he] at hfold
    have hdrop : ('-' :: c :: t).dropWhile isWsCh = '-' :: c :: t := by
      simp [List.dropWhile_cons, show isWsCh '-' = false from by decide]
    have hsign : parseSign ('-' :: c :: t) = (-1, c :: t) := by
      simp [parseSign]
    simp only [jsIntToString, if_pos hn, parseIntJS, natToString, he, hdrop, hsign,
      parseHexPrefix_digits _ hall, takeWhile_all _ hall, digitsValue_decimal]
    simp [hfold]
    omega
  · set m := n.natAbs with hm
    have hne : natToDigitsAux (m + 1) m [] ≠ [] := natToDigitsAux_ne_nil _ _ (by omega)
    have hall : (natToDigitsAux (m + 1) m []).all isDigitCh = true :=
      natToDigitsAux_all_digit _ _ (by omega)
    have hfold := natToDigitsAux_foldl (m + 1) m (by omega)
    simp only [jsIntToString, if_neg hn, natToString]
    rw [parseIntJS_digits _ hne hall, hfold]
    congr 1
    omega

/-! Lemmas about the ORDER BY created_at DESC model. -/

theorem length_insertByDesc (c : ClientRow) (l : List ClientRow) :
    (insertByDesc c l).length = l.length + 1 := by
  induction l with
  | nil => rfl
  | cons d t ih =>
    by_cases h : d.created_at ≤ c.created_at
    · simp [insertByDesc, h]
    · simp only [insertByDesc, if_neg h, List.length_cons, ih]

theorem mem_insertByDesc (a c : ClientRow) (l : List ClientRow) :
    a ∈ insertByDesc c l ↔ a = c ∨ a ∈ l := by
  induction l with
  | nil => simp [insertByDesc]
  | cons d t ih =>
    by_cases h : d.created_at ≤ c.created_at
    · simp [insertByDesc, h]
    · simp only [insertByDesc, if_neg h, List.mem_cons, ih]
      tauto

theorem length_sortByCreatedDesc (l : List ClientRow) :
    (sortByCreatedDesc l).length = l.length := by
  induction l with
  | nil => rfl
  | cons c t ih => simp [sortByCreatedDesc, length_insertByDesc, ih]

theorem mem_sortByCreatedDesc (a : ClientRow) (l : List ClientRow) :
    a ∈ sortByCreatedDesc l ↔ a ∈ l := by
  induction l with
  | nil => simp [sortByCreatedDesc]
  | cons c t ih =>
    simp only [sortByCreatedDesc, mem_insertByDesc, ih, List.mem_cons]

theorem pairwise_insertByDesc (c : ClientRow) (l : List ClientRow)
    (h : l.Pairwise (fun a b => b.created_at ≤ a.created_at)) :
    (insertByDesc c l).Pairwise (fun a b => b.created_at ≤ a.created_at) := by
  induction l with
  | nil => simp [insertByDesc]
  | cons d t ih =>
    rcases List.pairwise_cons.mp h with ⟨hd, ht⟩
    by_cases hcd : d.created_at ≤ c.created_at
    · simp only [insertByDesc, if_pos hcd]
      refine List.pairwise_cons.mpr ⟨?_, h⟩
      intro x hx
      rcases List.mem_cons.mp hx with rfl | hx
      · exact hcd
      · exact le_trans (hd x hx) hcd
    · simp only [insertByDesc, if_neg hcd]
      refine List.pairwise_cons.mpr ⟨?_, ih ht⟩
      intro x hx
      rcases (mem_insertByDesc x c t).mp hx with rfl | hx
      · omega
      · exact hd x hx

theorem pairwise_sortByCreatedDesc (l : List ClientRow) :
    (sortByCreatedDesc l).Pairwise (fun a b => b.created_at ≤ a.created_at) := by
  induction l with
  | nil => simp [sortByCreatedDesc]
  | cons c t ih => exact pairwise_insertByDesc c _ ih

theorem sortedByCreatedDesc_of_pairwise (l : List ClientRow)
    (h : l.Pairwise (fun a b => b.created_at ≤ a.created_at)) :
    sortedByCreatedDesc l = true := by
  induction l with
  | nil => rfl
  | cons a t ih =>
    cases t with
    | nil => rfl
    | cons b t2 =>
      rcases List.pairwise_cons.mp h with ⟨ha, hbt⟩
      simp only [sortedByCreatedDesc, Bool.and_eq_true, decide_eq_true_eq]
      exact ⟨ha b (List.mem_cons_self b t2), ih hbt⟩

/-! Lemmas about the LIKE matcher on metacharacter-free patterns. -/

theorem eqCI_refl (s : String) : eqCI s s = true := by
  simp [eqCI]

theorem likeMatchF_percent (s : List Char) : ∀ fuel : Nat, s.length + 2 ≤ fuel →
    likeMatchF fuel ['%'] s = true := by
  induction s with
  | nil =>
    intro fuel h
    match fuel, h with
    | f + 2, _ => simp [likeMatchF]
  | cons c s' ih =>
    intro fuel h
    match fuel, h with
    | f + 1, h =>
      have : likeMatchF f ['%'] s' = true := ih f (by simp at h ⊢; omega)
      simp [likeMatchF, this]

theorem metaFree_cons {a : Char} {l : List Char}
    (h : metaFreeL (a :: l) = true) :
    a ≠ '%' ∧ a ≠ '_' ∧ a ≠ '[' ∧ metaFreeL l = true := by
  simp only [metaFreeL, List.all_cons, Bool.and_eq_true, decide_eq_true_eq] at h
  exact ⟨h.1.1.1, h.1.1.2, h.1.2, h.2⟩

theorem likeMatchF_literal (t : List Char) (hm : metaFreeL t = true) :
    ∀ (s : List Char) (fuel : Nat), t.length + s.length + 2 ≤ fuel →
    likeMatchF fuel (t ++ ['%']) s = t.isPrefixOf s := by
  induction t with
  | nil =>
    intro s fuel h
    simpa [List.isPrefixOf] using likeMatchF_percent s fuel (by omega)
  | cons a t' ih =>
    obtain ⟨h1, h2, h3, hm'⟩ := metaFree_cons hm
    intro s fuel h
    match fuel, h with
    | f + 1, h =>
      cases s with
      | nil => simp [likeMatchF, h1, h2, h3, List.isPrefixOf]
      | cons c s' =>
        have hrec := ih hm' s' f (by simp at h ⊢; omega)
        simp only [likeMatchF, List.cons_append, if_neg h1, if_neg h2, if_neg h3, hrec]
        simp only [List.isPrefixOf_cons₂]
        by_cases hac : a = c
        · simp [hac]
        · simp [hac, Ne.symm hac]

theorem likeMatchF_contains (t : List Char) (hm : metaFreeL t = true) :
    ∀ (s : List Char) (fuel : Nat), t.length + s.length + 3 ≤ fuel →
    likeMatchF fuel ('%' :: (t ++ ['%'])) s = occursIn t s := by
  intro s
  induction s with
  | nil =>
    intro fuel h
    match fuel, h with
    | f + 1, h =>
      have hlit := likeMatchF_literal t hm [] f (by simp; omega)
      simp only [likeMatchF, if_pos rfl, hlit]
      cases t with
      | nil => simp [occursIn, List.isPrefixOf]
      | cons a t' => simp [occursIn, List.isPrefixOf]
  | cons c s' ih =>
    intro fuel h
    match fuel, h with
    | f + 1, h =>
      have hlit := likeMatchF_literal t hm (c :: s') f (by simp at h ⊢; omega)
      have hrec := ih f (by simp at h ⊢; omega)
      simp [likeMatchF, hlit, hrec, occursIn]

theorem likeMatch_contains (t s : List Char) (hm : metaFreeL t = true) :
    likeMatch ('%' :: (t ++ ['%'])) s = occursIn t s := by
  apply likeMatchF_contains t hm s
  simp [likeMatch]
  omega

theorem likeField_eq_ciSubstrOpt (term : String)
    (hm : metaFreeL (lowerL term.data) = true) (f : Option String) :
    likeField (lowerL (("%" ++ term ++ "%").data)) f = ciSubstrOpt term f := by
  have hdata : ("%" ++ term ++ "%").data = '%' :: (term.data ++ ['%']) := rfl
  cases f with
  | none => rfl
  | some s =>
    have hl : lowerL ('%' :: (term.data ++ ['%'])) = '%' :: (lowerL term.data ++ ['%']) := by
      simp [lowerL, List.map_append, show Char.toLower '%' = '%' from rfl]
    simp only [likeField, ciSubstrOpt, ciSubstr, hdata, hl]
    exact likeMatch_contains _ _ hm

theorem likeAnyField_eq_spec (term : String) (r : ClientRow)
    (hm : metaFreeL (lowerL term.data) = true) :
    likeAnyField term r = specSearchMatch term r := by
  simp only [likeAnyField, specSearchMatch, likeField_eq_ciSubstrOpt term hm]
  rfl

theorem listPred_search_eq (n : Int) (term : String) (r : ClientRow)
    (hact : searchActive (some term) = true)
    (hm : metaFreeL (lowerL term.data) = true) :
    listPred n (some term) r
      = (decide (r.sales_rep_id = some n) && specSearchMatch term r) := by
  simp [listPred, hact, likeAnyField_eq_spec term r hm]

/-! Claim theorems about the Auth Resolver. -/

/-- C1 fails as stated: a refused connection is a transport-level failure
(the remote call produced no application-level response at all), yet the
middleware classifies only ECONNABORTED or a Network Error message as
grounds for fallback. Here local verification of the same token would
succeed, but the request is rejected with a 500 and never falls back. -/
theorem claim_c1_counterexample :
    fxErrRefused.response = none
    ∧ validateSalesAuth fxEnv (some "Bearer tok") (.axiosErr fxErrRefused) fxVerify 5000
        = .reject 500 "Authentication service error"
    ∧ localValidate fxEnv.jwtSecret fxVerify (tokenOf "Bearer tok") 5000
        = .ok ⟨"7", "rep@x.io", "sales"⟩ :=
  ⟨rfl, by decide, by decide⟩

/-- C1 (amended): with a remote endpoint configured, a remote failure that
the middleware classifies as transport (axios code ECONNABORTED, or an error
message containing Network Error) makes validateSalesAuth fall back to
localValidate on the same token, and the request succeeds exactly when local
verification succeeds: the secret is configured, the signature verifies, the
token is unexpired, and the decoded role is sales or admin. -/
theorem claim_c1_amended (env : AuthEnv) (h : String) (e : AxiosErrorInfo)
    (verify : String → String → Option DecodedToken) (nowMs : Int)
    (hcfg : (jsTruthy env.mainApiUrl && jsTruthy env.authEndpoint) = true)
    (hhdr : ("Bearer ".data.isPrefixOf h.data) = true)
    (htr : isTransportError e = true) :
    validateSalesAuth env (some h) (.axiosErr e) verify nowMs
      = localValidate env.jwtSecret verify (tokenOf h) nowMs
    ∧ ∀ p, localValidate env.jwtSecret verify (tokenOf h) nowMs = .ok p
        ↔ jsTruthy env.jwtSecret = true
          ∧ ∃ d, verify (tokenOf h) (env.jwtSecret.getD "") = some d
              ∧ ¬ d.exp * 1000 < nowMs
              ∧ (d.role = "sales" ∨ d.role = "admin")
              ∧ p = ⟨jsIntToString d.userId, d.email, d.role⟩ := by
  constructor
  · simp [validateSalesAuth, hhdr, hcfg, htr]
  · intro p
    unfold localValidate
    by_cases hs : jsTruthy env.jwtSecret = false
    · simp [hs]
    · have hs' : jsTruthy env.jwtSecret = true := by
        cases hb : jsTruthy env.jwtSecret
        · exact absurd hb hs
        · rfl
      rw [if_neg hs]
      cases hv : verify (tokenOf h) (env.jwtSecret.getD "") with
      | none => simp [hs']
      | some d =>
        simp only []
        by_cases he : d.exp * 1000 < nowMs
        · rw [if_pos he]
          constructor
          · intro hc; exact absurd hc (by simp)
          · rintro ⟨-, d', hd', he', -, -⟩
            injection hd' with hdd
            subst hdd
            exact absurd he he'
        · rw [if_neg he]
          by_cases hr : d.role ≠ "sales" ∧ d.role ≠ "admin"
          · rw [if_pos hr]
            constructor
            · intro hc; exact absurd hc (by simp)
            · rintro ⟨-, d', hd', -, hrole, -⟩
              injection hd' with hdd
              subst hdd
              rcases hrole with h1 | h2
              · exact absurd h1 hr.1
              · exact absurd h2 hr.2
          · rw [if_neg hr]
            push_neg at hr
            constructor
            · intro hok
              injection hok with hpeq
              refine ⟨hs', d, rfl, he, ?_, hpeq.symm⟩
              by_cases hsales : d.role = "sales"
              · exact Or.inl hsales
              · exact Or.inr (hr hsales)
            · rintro ⟨-, d', hd', -, -, hp⟩
              injection hd' with hdd
              subst hdd
              rw [hp]

/-- Witness for C1 (amended) at a concrete timeout error: the resolver's
result coincides with local validation of the extracted token. -/
theorem claim_c1_amended_witness :
    validateSalesAuth fxEnv (some "Bearer tok") (.axiosErr fxErrTimeout) fxVerify 5000
      = localValidate fxEnv.jwtSecret fxVerify (tokenOf "Bearer tok") 5000 :=
  (claim_c1_amended fxEnv "Bearer tok" fxErrTimeout fxVerify 5000
    (by decide) (by decide) (by decide)).1

/-- C4 fails as stated: on the remote-delegation path the middleware never
inspects the token's expiry. With the remote service accepting, a token
whose decoded expiry lies in the past is admitted instead of yielding a
401. -/
theorem claim_c4_counterexample :
    (fxVerifyExpired (tokenOf "Bearer tok") "sec" = some ⟨9, "rep@x.io", "sales", 1⟩
      ∧ (1 : Int) * 1000 < 5000)
    ∧ validateSalesAuth fxEnv (some "Bearer tok") (.ok (some fxRemoteUser)) fxVerifyExpired 5000
        = .ok ⟨"9", "rep@x.io", "sales"⟩ := by
  refine ⟨⟨by decide, by decide⟩, by decide⟩

/-- C4 (amended): on every path that performs local verification — no remote
endpoint configured, or a transport-classified remote failure — a token
whose decoded expiry is in the past always yields a 401; on the
remote-delegation success path no expiry check is performed by this code. -/
theorem claim_c4_amended (env : AuthEnv) (h : String) (remote : RemoteOutcome)
    (verify : String → String → Option DecodedToken) (nowMs : Int)
    (hhdr : ("Bearer ".data.isPrefixOf h.data) = true)
    (hpath : (jsTruthy env.mainApiUrl && jsTruthy env.authEndpoint) = false
      ∨ ∃ e, remote = .axiosErr e ∧ isTransportError e = true)
    (hexp : ∀ d, verify (tokenOf h) (env.jwtSecret.getD "") = some d
      → d.exp * 1000 < nowMs) :
    (validateSalesAuth env (some h) remote verify nowMs).statusOf = some 401 := by
  have hloc : (localValidate env.jwtSecret verify (tokenOf h) nowMs).statusOf = some 401 := by
    unfold localValidate
    by_cases hs : jsTruthy env.jwtSecret = false
    · simp [hs, AuthOutcome.statusOf]
    · rw [if_neg hs]
      cases hv : verify (tokenOf h) (env.jwtSecret.getD "") with
      | none => simp [AuthOutcome.statusOf]
      | some d =>
        simp only []
        rw [if_pos (hexp d hv)]
        simp [AuthOutcome.statusOf]
  by_cases hc : (jsTruthy env.mainApiUrl && jsTruthy env.authEndpoint) = true
  · rcases hpath with hcfg | ⟨e, rfl, htr⟩
    · rw [hcfg] at hc
      exact absurd hc (by simp)
    · simpa [validateSalesAuth, hhdr, hc, htr] using hloc
  · have hc' : (jsTruthy env.mainApiUrl && jsTruthy env.authEndpoint) = false := by
      cases hb : (jsTruthy env.mainApiUrl && jsTruthy env.authEndpoint)
      · rfl
      · exact absurd hb hc
    simpa [validateSalesAuth, hhdr, hc'] using hloc

/-- Witness for C4 (amended): with no remote endpoint configured, an
expired token is rejected with a 401. -/
theorem claim_c4_amended_witness :
    (validateSalesAuth fxEnvLocal (some "Bearer tok") .otherErr fxVerifyExpired 5000).statusOf
      = some 401 := by
  refine claim_c4_amended fxEnvLocal "Bearer tok" .otherErr fxVerifyExpired 5000
    (by decide) (Or.inl (by decide)) ?_
  intro d hd
  rw [show fxVerifyExpired (tokenOf "Bearer tok") (fxEnvLocal.jwtSecret.getD "")
      = some ⟨9, "rep@x.io", "sales", 1⟩ from by decide] at hd
  injection hd with hdd
  subst hdd
  decide

/-- C5: with a remote endpoint configured, an axios error that is not
transport-classified and carries an application-level response makes the
middleware answer with exactly that response's status and body; the result
does not depend on the verify oracle, the secret or the clock, so local
verification is never attempted. (Real axios errors that carry a response
have code ERR_BAD_REQUEST or ERR_BAD_RESPONSE and message
Request failed with status code N, so they are never transport-classified.) -/
theorem claim_c5 (env : AuthEnv) (h : String) (e : AxiosErrorInfo) (r : ErrResponse)
    (verify : String → String → Option DecodedToken) (nowMs : Int)
    (hcfg : (jsTruthy env.mainApiUrl && jsTruthy env.authEndpoint) = true)
    (hhdr : ("Bearer ".data.isPrefixOf h.data) = true)
    (hnt : isTransportError e = false) (hresp : e.response = some r) :
    validateSalesAuth env (some h) (.axiosErr e) verify nowMs
      = .propagate r.status r.data := by
  simp [validateSalesAuth, hhdr, hcfg, hnt, hresp]

/-- Witness for C5 at a concrete remote 401: the status and body are
propagated verbatim. -/
theorem claim_c5_witness :
    validateSalesAuth fxEnv (some "Bearer tok") (.axiosErr fxErrApp) fxVerify 5000
      = .propagate 401 "remote-rejection-body" :=
  claim_c5 fxEnv "Bearer tok" fxErrApp ⟨401, "remote-rejection-body"⟩ fxVerify 5000
    (by decide) (by decide) (by decide) (by decide)

/-! Inversion lemmas for the route handlers. -/

theorem createHandler_created_inv (tbl : List ClientRow) (user : Principal)
    (body : CreateBody) (uuid : String) (nowMs : Int) (c : ClientRow)
    (tbl1 : List ClientRow)
    (hres : createHandler tbl user body uuid nowMs = (.created 201 c, tbl1)) :
    requiredFieldsOk body = true
    ∧ ∃ n, parseIntJS user.id = some n
      ∧ tbl1 = tbl ++ [rowFromData { body with sales_rep_id := some n } uuid nowMs] := by
  simp only [createHandler] at hres
  split at hres
  · simp at hres
  · split at hres
    · simp at hres
    · split at hres
      · simp at hres
      · rename_i hval hdup huid
        split at hres
        · simp at hres
        · rename_i n hn
          constructor
          · cases hb : requiredFieldsOk body
            · exact absurd hb hval
            · rfl
          · refine ⟨n, hn, ?_⟩
            split at hres
            · rename_i c' tbl2 heq
              simp only [createClient] at heq
              have h2 := congrArg Prod.snd heq
              simp at h2
              have h1 := congrArg Prod.snd hres
              simp at h1
              rw [← h1, ← h2]
            · simp at hres

theorem listHandler_ok_inv (tbl : List ClientRow) (user : Principal)
    (qPage qPageSize qSearch : Option String) (clients : List ClientRow)
    (total : Nat) (n : Int)
    (hn : parseIntJS user.id = some n)
    (hres : listHandler tbl user qPage qPageSize qSearch = .ok clients total) :
    ∃ p f, pageParam qPage 1 = some p ∧ pageParam qPageSize 10 = some f
      ∧ ¬ ((p - 1) * f < 0 ∨ f < 1)
      ∧ clients = ((sortByCreatedDesc (matchingRows tbl n qSearch)).drop
          ((p - 1) * f).toNat).take f.toNat
      ∧ total = (matchingRows tbl n qSearch).length := by
  simp only [listHandler] at hres
  split at hres
  · simp at hres
  · split at hres
    · simp at hres
    · rename_i r heq
      simp only [getAllClientsBySalesRep, hn] at heq
      cases hp : pageParam qPage 1 with
      | none => rw [hp] at heq; simp at heq
      | some p =>
        cases hf : pageParam qPageSize 10 with
        | none => rw [hp, hf] at heq; simp at heq
        | some f =>
          rw [hp, hf] at heq
          simp only [] at heq
          by_cases hcond : ((p - 1) * f < 0 ∨ f < 1)
          · rw [if_pos hcond] at heq; simp at heq
          · rw [if_neg hcond] at heq
            injection heq with heq2
            injection hres with h1 h2
            exact ⟨p, f, rfl, rfl, hcond, by rw [← h1, ← heq2], by rw [← h2, ← heq2]⟩

theorem recentHandler_ok_inv (tbl : List ClientRow) (user : Principal)
    (qLimit : Option String) (rclients : List ClientRow) (rcount : Nat) (n : Int)
    (hn : parseIntJS user.id = some n)
    (hres : recentHandler tbl user qLimit = .ok rclients rcount) :
    ∃ l, pageParam qLimit 10 = some l ∧ ¬ l < 0
      ∧ rclients = (sortByCreatedDesc
          (tbl.filter (fun r => decide (r.sales_rep_id = some n)))).take l.toNat
      ∧ rcount = rclients.length := by
  simp only [recentHandler] at hres
  split at hres
  · simp at hres
  · rw [hn] at hres
    simp only [] at hres
    split at hres
    · simp at hres
    · rename_i cl heq
      simp only [getClientsByCreator, parseIntJS_jsIntToString] at heq
      cases hlim : pageParam qLimit 10 with
      | none => rw [hlim] at heq; simp at heq
      | some l =>
        rw [hlim] at heq
        simp only [] at heq
        by_cases hneg : l < 0
        · rw [if_pos hneg] at heq; simp at heq
        · rw [if_neg hneg] at heq
          injection heq with heq1
          injection hres with h1 h2
          exact ⟨l, rfl, hneg, by rw [← h1, ← heq1], by rw [← h2, h1]⟩

/-! Claim theorems about the client routes. -/

/-- C8: a creation request missing any of the five required fields is
answered with a 400 and the message listing them, and the stored table is
unchanged. -/
theorem claim_c8 (tbl : List ClientRow) (user : Principal) (body : CreateBody)
    (uuid : String) (nowMs : Int)
    (hmiss : requiredFieldsOk body = false) :
    createHandler tbl user body uuid nowMs
      = (.failed 400 "Missing required fields: customer_type, product, insurance_provider, client_name, mobile_no",
         tbl) := by
  simp [createHandler, hmiss]

/-- Witness for C8: a body without a mobile number is rejected and nothing
is stored. -/
theorem claim_c8_witness :
    createHandler [] fxUser fxBodyMissing fxUuid 1000
      = (.failed 400 "Missing required fields: customer_type, product, insurance_provider, client_name, mobile_no",
         []) :=
  claim_c8 [] fxUser fxBodyMissing fxUuid 1000 (by decide)

/-- C9: after a creation request has succeeded, a second valid creation
request with the identical client name and insurance provider is answered
with a 409 and inserts nothing, whoever the second requester is. -/
theorem claim_c9 (tbl : List ClientRow) (user1 user2 : Principal)
    (body1 body2 : CreateBody) (uuid1 uuid2 : String) (t1 t2 : Int)
    (c : ClientRow) (tbl1 : List ClientRow)
    (h1 : createHandler tbl user1 body1 uuid1 t1 = (.created 201 c, tbl1))
    (hname : body2.client_name = body1.client_name)
    (hprov : body2.insurance_provider = body1.insurance_provider)
    (hvalid2 : requiredFieldsOk body2 = true) :
    createHandler tbl1 user2 body2 uuid2 t2
      = (.failed 409 "A client with this name and insurance provider already exists",
         tbl1) := by
  obtain ⟨hvalid1, n, hn, htbl⟩ := createHandler_created_inv _ _ _ _ _ _ _ h1
  have hrow : rowFromData { body1 with sales_rep_id := some n } uuid1 t1 ∈ tbl1 := by
    rw [htbl]; simp
  have hdup : checkDuplicate tbl1 (body2.client_name.getD "")
      (body2.insurance_provider.getD "") = true := by
    unfold checkDuplicate
    rw [decide_eq_true_iff]
    apply List.length_pos_of_mem
    apply List.mem_filter.mpr
    refine ⟨hrow, ?_⟩
    simp only [rowFromData, hname, hprov, Bool.and_eq_true]
    exact ⟨eqCI_refl _, eqCI_refl _⟩
  simp [createHandler, hvalid2, hdup]

/-- Witness for C9 at a concrete pair of identical requests: the second one
is rejected with a 409 and the table is unchanged. -/
theorem claim_c9_witness :
    createHandler [fxRowGen] fxUser fxBody fxUuid 2000
      = (.failed 409 "A client with this name and insurance provider already exists",
         [fxRowGen]) :=
  claim_c9 [] fxUser fxUser fxBody fxBody fxUuid fxUuid 1000 2000 fxRowGen [fxRowGen]
    (by decide) rfl rfl (by decide)

/-- C10 fails as stated: a principal whose id is the empty string does not
parse as an integer either, yet the recent route answers 401, not 500,
because the id-presence check precedes the parse. -/
theorem claim_c10_counterexample :
    parseIntJS fxUserEmptyId.id = none
    ∧ recentHandler [] fxUserEmptyId none
        = .err 401 "User ID not found in authentication data" := by
  refine ⟨by decide, by decide⟩

/-- C10 (amended): an authenticated principal whose id is non-empty but does
not parse as an integer makes the create route (once the body has passed the
required-field validation and the duplicate check) and the recent route
answer 500 with Invalid sales rep ID format, and nothing is inserted; an
empty principal id yields a 401 instead, and create requests failing the
earlier checks yield their 400 or 409 first. -/
theorem claim_c10_amended (tbl : List ClientRow) (user : Principal)
    (body : CreateBody) (uuid : String) (nowMs : Int) (qLimit : Option String)
    (hu : user.id ≠ "") (hnp : parseIntJS user.id = none)
    (hvalid : requiredFieldsOk body = true)
    (hdup : checkDuplicate tbl (body.client_name.getD "")
      (body.insurance_provider.getD "") = false) :
    createHandler tbl user body uuid nowMs
      = (.failed 500 "Invalid sales rep ID format", tbl)
    ∧ recentHandler tbl user qLimit = .err 500 "Invalid sales rep ID format" := by
  constructor
  · simp only [createHandler]
    rw [if_neg (by simp [hvalid]), if_neg (by simp [hdup]), if_neg hu, hnp]
  · simp only [recentHandler]
    rw [if_neg hu, hnp]

/-- Witness for C10 (amended): a principal id of abc yields the 500 on both
routes and the table is unchanged. -/
theorem claim_c10_amended_witness :
    createHandler [] fxUserBadId fxBody fxUuid 1000
      = (.failed 500 "Invalid sales rep ID format", [])
    ∧ recentHandler [] fxUserBadId none = .err 500 "Invalid sales rep ID format" :=
  claim_c10_amended [] fxUserBadId fxBody fxUuid 1000 none
    (by decide) (by decide) (by decide) (by decide)

/-- C2 fails as stated: a valid creation request whose body supplies an id
is stored and returned under that id, which need not match the
C-hex-8 shape; the owner is still the resolved principal. -/
theorem claim_c2_counterexample :
    requiredFieldsOk fxBodyWithId = true
    ∧ createHandler [] fxUser fxBodyWithId fxUuid 1000 = (.created 201 fxRowZZZ, [fxRowZZZ])
    ∧ clientIdPattern fxRowZZZ.id = false
    ∧ fxRowZZZ.sales_rep_id = some 7 := by
  refine ⟨by decide, by decide, by decide, by decide⟩

/-- C2 (amended): a valid creation request whose body does not supply an id
and whose (client name, insurance provider) pair is not yet stored inserts
exactly one row and returns it; its id is the generated C followed by eight
lowercase hex characters, and its owner is the parsed principal id
regardless of any client-supplied sales_rep_id (the body's value is
overwritten and the result is invariant under changing it). -/
theorem claim_c2_amended (tbl : List ClientRow) (user : Principal)
    (body : CreateBody) (uuid : String) (nowMs : Int) (n : Int)
    (hid : body.id = none)
    (hvalid : requiredFieldsOk body = true)
    (hdup : checkDuplicate tbl (body.client_name.getD "")
      (body.insurance_provider.getD "") = false)
    (huid : user.id ≠ "")
    (hparse : parseIntJS user.id = some n)
    (huuid : hexLower8 uuid = true)
    (hfresh : ∀ r ∈ tbl, eqCI r.id (genClientId uuid) = false) :
    createHandler tbl user body uuid nowMs
      = (.created 201 (rowFromData { body with sales_rep_id := some n } uuid nowMs),
         tbl ++ [rowFromData { body with sales_rep_id := some n } uuid nowMs])
    ∧ clientIdPattern (rowFromData { body with sales_rep_id := some n } uuid nowMs).id = true
    ∧ (rowFromData { body with sales_rep_id := some n } uuid nowMs).sales_rep_id = some n
    ∧ ∀ v, createHandler tbl user { body with sales_rep_id := v } uuid nowMs
        = createHandler tbl user body uuid nowMs := by
  have hrowid : (rowFromData { body with sales_rep_id := some n } uuid nowMs).id
      = genClientId uuid := by
    simp [rowFromData, hid]
  refine ⟨?_, ?_, ?_, ?_⟩
  · have hcc : createClient tbl { body with sales_rep_id := some n } uuid nowMs
        = (some (rowFromData { body with sales_rep_id := some n } uuid nowMs),
           tbl ++ [rowFromData { body with sales_rep_id := some n } uuid nowMs]) := by
      simp only [createClient]
      have h1 : tbl.filter (fun r => eqCI r.id
          (rowFromData { body with sales_rep_id := some n } uuid nowMs).id) = [] := by
        apply List.filter_eq_nil_iff.mpr
        intro r hr
        rw [hrowid]
        simp [hfresh r hr]
      rw [List.filter_append, h1]
      simp [List.filter, eqCI_refl]
    simp only [createHandler]
    rw [if_neg (by simp [hvalid]), if_neg (by simp [hdup]), if_neg huid, hparse]
    simp only []
    rw [hcc]
  · rw [hrowid]
    simp only [hexLower8, Bool.and_eq_true, decide_eq_true_eq] at huuid
    simp [clientIdPattern, genClientId, huuid.1, huuid.2]
  · simp [rowFromData]
  · intro v
    cases body
    simp [createHandler, createClient, rowFromData, requiredFieldsOk, checkDuplicate]

/-- Witness for C2 (amended) on an empty table: the insert happens, the id
has the generated shape and the owner is the principal. -/
theorem claim_c2_amended_witness :
    createHandler [] fxUser fxBody fxUuid 1000 = (.created 201 fxRowGen, [fxRowGen])
    ∧ clientIdPattern fxRowGen.id = true
    ∧ fxRowGen.sales_rep_id = some 7 := by
  have h := claim_c2_amended [] fxUser fxBody fxUuid 1000 7
    (by decide) (by decide) (by decide) (by decide) (by decide) (by decide)
    (by intro r hr; simp at hr)
  have hrow : rowFromData { fxBody with sales_rep_id := some 7 } fxUuid 1000 = fxRowGen := by
    decide
  refine ⟨?_, ?_, ?_⟩
  · have := h.1
    rw [hrow] at this
    simpa using this
  · have := h.2.1
    rw [hrow] at this
    exact this
  · have := h.2.2.1
    rw [hrow] at this
    exact this

/-- C3: whenever the paginated listing responds 200, the reported total is
at least the number of returned rows and every returned row belongs to the
requesting principal's parsed id; whenever the recent listing responds 200,
the reported count equals the number of returned rows and every returned
row belongs to the same principal. No record of another sales rep is ever
returned. -/
theorem claim_c3 (tbl : List ClientRow) (user : Principal)
    (qPage qPageSize qSearch qLimit : Option String) (n : Int)
    (clients rclients : List ClientRow) (total rcount : Nat)
    (hn : parseIntJS user.id = some n) :
    (listHandler tbl user qPage qPageSize qSearch = .ok clients total →
      clients.length ≤ total
      ∧ clients.all (fun c => decide (c.sales_rep_id = some n)) = true)
    ∧ (recentHandler tbl user qLimit = .ok rclients rcount →
      rclients.length ≤ rcount
      ∧ rclients.all (fun c => decide (c.sales_rep_id = some n)) = true) := by
  constructor
  · intro hres
    obtain ⟨p, f, hp, hf, hcond, hclients, htotal⟩ :=
      listHandler_ok_inv tbl user qPage qPageSize qSearch clients total n hn hres
    constructor
    · rw [hclients, htotal]
      have h1 : ((sortByCreatedDesc (matchingRows tbl n qSearch)).drop
            ((p - 1) * f).toNat).length
          ≤ (sortByCreatedDesc (matchingRows tbl n qSearch)).length := by
        rw [List.length_drop]; omega
      have h2 := List.length_take_le' f.toNat
        ((sortByCreatedDesc (matchingRows tbl n qSearch)).drop ((p - 1) * f).toNat)
      rw [length_sortByCreatedDesc] at h1
      omega
    · apply List.all_eq_true.mpr
      intro c hc
      rw [hclients] at hc
      have h1 := List.mem_of_mem_drop (List.mem_of_mem_take hc)
      rw [mem_sortByCreatedDesc] at h1
      have h2 := (List.mem_filter.mp h1).2
      simp only [listPred, Bool.and_eq_true] at h2
      exact h2.1
  · intro hres
    obtain ⟨l, hl, hneg, hrclients, hrcount⟩ :=
      recentHandler_ok_inv tbl user qLimit rclients rcount n hn hres
    constructor
    · omega
    · apply List.all_eq_true.mpr
      intro c hc
      rw [hrclients] at hc
      have h1 := List.mem_of_mem_take hc
      rw [mem_sortByCreatedDesc] at h1
      exact (List.mem_filter.mp h1).2

/-- Witness for C3 at a concrete one-row table: both listings return the
single row of the principal, with total and count one. -/
theorem claim_c3_witness :
    (([fxRow] : List ClientRow).length ≤ 1
      ∧ ([fxRow] : List ClientRow).all (fun c => decide (c.sales_rep_id = some 7)) = true)
    ∧ (([fxRow] : List ClientRow).length ≤ 1
      ∧ ([fxRow] : List ClientRow).all (fun c => decide (c.sales_rep_id = some 7)) = true) := by
  have h := claim_c3 [fxRow] fxUser none none none none 7 [fxRow] [fxRow] 1 1 (by decide)
  exact ⟨h.1 (by decide), h.2 (by decide)⟩

/-- C6 fails as stated: a present but non-numeric page parameter does not
default to 1 — parseInt yields NaN, the computed OFFSET is invalid SQL and
the request fails with a 500, unlike the same request with the parameter
absent. -/
theorem claim_c6_counterexample :
    parseIntJS "abc" = none
    ∧ listHandler [fxRow] fxUser (some "abc") none none = .err 500 "Failed to get clients"
    ∧ listHandler [fxRow] fxUser none none none = .ok [fxRow] 1 := by
  refine ⟨by decide, by decide, by decide⟩

/-- C6 (amended): page and pageSize default to 1 and 10 when the query
parameter is absent or empty (the listing behaves exactly as with the
literal parameters 1 and 10); a present non-numeric page or pageSize makes
the request fail with a 500 instead of defaulting; and for numeric page and
pageSize at least 1 the returned page consists of the matching rows ordered
by creation time descending with exactly (page-1)*pageSize of them skipped. -/
theorem claim_c6_amended (tbl : List ClientRow) (user : Principal)
    (qSearch : Option String) (n : Int)
    (hu : user.id ≠ "") (hn : parseIntJS user.id = some n) :
    listHandler tbl user none none qSearch
      = listHandler tbl user (some "1") (some "10") qSearch
    ∧ (∀ s qps, s ≠ "" → parseIntJS s = none →
        listHandler tbl user (some s) qps qSearch = .err 500 "Failed to get clients")
    ∧ (∀ s qp, s ≠ "" → parseIntJS s = none →
        listHandler tbl user qp (some s) qSearch = .err 500 "Failed to get clients")
    ∧ (∀ sp sf p f, parseIntJS sp = some p → parseIntJS sf = some f →
        sp ≠ "" → sf ≠ "" → 1 ≤ p → 1 ≤ f →
        listHandler tbl user (some sp) (some sf) qSearch
          = .ok (((sortByCreatedDesc (matchingRows tbl n qSearch)).drop
              ((p - 1) * f).toNat).take f.toNat)
            (matchingRows tbl n qSearch).length
        ∧ sortedByCreatedDesc (((sortByCreatedDesc (matchingRows tbl n qSearch)).drop
            ((p - 1) * f).toNat).take f.toNat) = true) := by
  refine ⟨?_, ?_, ?_, ?_⟩
  · simp only [listHandler]
    rw [show pageParam (some "1") 1 = pageParam none 1 from by decide,
      show pageParam (some "10") 10 = pageParam none 10 from by decide]
  · intro s qps hs hnone
    simp only [listHandler]
    rw [if_neg hu]
    have hp : pageParam (some s) 1 = none := by simp [pageParam, hs, hnone]
    rw [hp]
    simp only [getAllClientsBySalesRep, hn]
  · intro s qp hs hnone
    simp only [listHandler]
    rw [if_neg hu]
    have hp : pageParam (some s) 10 = none := by simp [pageParam, hs, hnone]
    rw [hp]
    simp only [getAllClientsBySalesRep, hn]
    cases pageParam qp 1 <;> simp
  · intro sp sf p f hp hf hsp hsf hp1 hf1
    have hpp : pageParam (some sp) 1 = some p := by simp [pageParam, hsp, hp]
    have hpf : pageParam (some sf) 10 = some f := by simp [pageParam, hsf, hf]
    have hcond : ¬((p - 1) * f < 0 ∨ f < 1) := by
      push_neg
      refine ⟨?_, by omega⟩
      have := mul_nonneg (show (0 : Int) ≤ p - 1 by omega) (show (0 : Int) ≤ f by omega)
      omega
    constructor
    · simp only [listHandler]
      rw [if_neg hu, hpp, hpf]
      simp only [getAllClientsBySalesRep, hn]
      rw [if_neg hcond]
    · apply sortedByCreatedDesc_of_pairwise
      exact ((pairwise_sortByCreatedDesc _).sublist
        (List.drop_sublist _ _)).sublist (List.take_sublist _ _)

/-- Witness for C6 (amended): defaults coincide with explicit 1 and 10, and
a non-numeric pageSize gives the 500. -/
theorem claim_c6_amended_witness :
    listHandler [fxRow] fxUser none none none
      = listHandler [fxRow] fxUser (some "1") (some "10") none
    ∧ listHandler [fxRow] fxUser none (some "xyz") none
      = .err 500 "Failed to get clients" := by
  have h := claim_c6_amended [fxRow] fxUser none 7 (by decide) (by decide)
  exact ⟨h.1, h.2.2.1 "xyz" none (by decide) (by decide)⟩

/-- C7 fails as stated: the search term is interpolated into a LIKE pattern,
so its metacharacters keep their LIKE meaning. The term x_z is not a
substring of the stored client name xyz in any case folding, yet the record
is returned because the underscore matches any character. -/
theorem claim_c7_counterexample :
    searchActive (some "x_z") = true
    ∧ listHandler [fxRowXyz] fxUser none none (some "x_z") = .ok [fxRowXyz] 1
    ∧ specSearchMatch "x_z" fxRowXyz = false := by
  refine ⟨by decide, by decide, by decide⟩

/-- C7 (amended): for a search term that is non-empty after trimming and
free of the LIKE metacharacters percent, underscore and opening bracket,
the WHERE clause of the listing is exactly the spec's predicate — the term
occurs as a case-insensitive substring of client name, email, mobile
number, product, insurer or policy number (OR), and the row belongs to the
requesting sales rep (AND): every returned row satisfies it, the reported
total counts exactly the rows satisfying it, and the returned page is a
slice of them; terms containing metacharacters are matched as LIKE patterns
instead. -/
theorem claim_c7_amended (tbl : List ClientRow) (user : Principal)
    (term : String) (qp qps : Option String) (n : Int)
    (clients : List ClientRow) (total : Nat)
    (hact : searchActive (some term) = true)
    (hmeta : metaFreeL (lowerL term.data) = true)
    (hn : parseIntJS user.id = some n)
    (hres : listHandler tbl user qp qps (some term) = .ok clients total) :
    clients.all (fun c => decide (c.sales_rep_id = some n) && specSearchMatch term c) = true
    ∧ matchingRows tbl n (some term)
        = tbl.filter (fun r => decide (r.sales_rep_id = some n) && specSearchMatch term r)
    ∧ total = (tbl.filter
        (fun r => decide (r.sales_rep_id = some n) && specSearchMatch term r)).length := by
  have hpred : matchingRows tbl n (some term)
      = tbl.filter (fun r => decide (r.sales_rep_id = some n) && specSearchMatch term r) := by
    unfold matchingRows
    apply List.filter_congr
    intro r hr
    exact listPred_search_eq n term r hact hmeta
  obtain ⟨p, f, hp, hf, hcond, hclients, htotal⟩ :=
    listHandler_ok_inv tbl user qp qps (some term) clients total n hn hres
  refine ⟨?_, hpred, by rw [htotal, hpred]⟩
  apply List.all_eq_true.mpr
  intro c hc
  rw [hclients] at hc
  have h1 := List.mem_of_mem_drop (List.mem_of_mem_take hc)
  rw [mem_sortByCreatedDesc, hpred] at h1
  exact (List.mem_filter.mp h1).2

/-- Witness for C7 (amended) at a concrete table: the search acme finds the
AcmeIns row of the principal and the LIKE predicate coincides with the
substring predicate. -/
theorem claim_c7_amended_witness :
    ([fxRow] : List ClientRow).all
      (fun c => decide (c.sales_rep_id = some 7) && specSearchMatch "acme" c) = true
    ∧ matchingRows [fxRow, fxRowXyz] 7 (some "acme")
        = ([fxRow, fxRowXyz] : List ClientRow).filter
            (fun r => decide (r.sales_rep_id = some 7) && specSearchMatch "acme" r)
    ∧ 1 = (([fxRow, fxRowXyz] : List ClientRow).filter
        (fun r => decide (r.sales_rep_id = some 7) && specSearchMatch "acme" r)).length := by
  exact claim_c7_amended [fxRow, fxRowXyz] fxUser "acme" none none 7 [fxRow] 1
    (by decide) (by decide) (by decide) (by decide)

end Sales
